import Mathlib

/-!
Shallow embedding of the Kea DHCP configuration filter plugin
(src/filter_plugins/kea.py) and proofs about its validation and
rendering behaviour.

The Python module is a pydantic-v1 model tree.  Pure Python/stdlib and
pydantic-v1 primitives that the module relies on (str.strip, str.split,
str.replace, int(...), ipaddress.IPv4Address, the pydantic field
validators and the dict/json serialization pipeline) are embedded here
as executable Lean functions; each definition's doc comment names what
it embeds.  Machine strings are Lean String (logically List Char),
Python ints are Int / Nat.
-/

namespace Kea

/-- Embeds Python str.strip() (default whitespace stripping) on a
character list: drop whitespace from both ends. -/
def pyStripChars (l : List Char) : List Char :=
  ((l.dropWhile Char.isWhitespace).reverse.dropWhile Char.isWhitespace).reverse

/-- Embeds Python str.strip() on a string. -/
def pyStrip (s : String) : String := ⟨pyStripChars s.data⟩

/-- Embeds Python str.split(sep) for a single-character separator:
"a--b".split("-") gives ["a", "", "b"], "".split("-") gives [""]. -/
def pySplitOn (sep : Char) : List Char → List (List Char)
  | [] => [[]]
  | c :: rest =>
    if c = sep then [] :: pySplitOn sep rest
    else
      match pySplitOn sep rest with
      | [] => [[c]]
      | p :: ps => (c :: p) :: ps

/-- Embeds Python sep.join(parts) for a single-character separator. -/
def joinSep (sep : Char) : List (List Char) → List Char
  | [] => []
  | [p] => p
  | p :: ps => p ++ sep :: joinSep sep ps

/-- Embeds Python str.replace(old, new) for a single-character old and
new, the only form used by kea_alias_generator: with a one-character
pattern, leftmost non-overlapping replacement is exactly per-character
substitution. -/
def pyReplace1 (a b : Char) : List Char → List Char
  | [] => []
  | c :: rest => (if c = a then b else c) :: pyReplace1 a b rest

/-- Embeds the exception_map literal of kea_alias_generator
(kea.py lines 13-15). -/
def exception_map : List (String × String) := [("output_options", "output_options")]

/-- Embeds kea_alias_generator (kea.py lines 11-19): field names in the
exception map are returned via the map, every other name has each
underscore replaced by a hyphen.  The lru_cache decorator is a pure
memoization and is not modelled. -/
def kea_alias_generator (k : String) : String :=
  match exception_map.find? (fun kv => kv.1 == k) with
  | some kv => kv.2
  | none => ⟨pyReplace1 '_' '-' k.data⟩

/-- Modelled from the spec: the reverse translation of field-name
aliasing, replacing each hyphen of the external hyphenated form with
an underscore.  (No such function exists in the source; the spec
defines the roundtrip property against this reading.) -/
def kea_reverse_alias (k : String) : String := ⟨pyReplace1 '-' '_' k.data⟩

/-- ASCII decimal digit test: embeds the combined
octet_str.isascii() and octet_str.isdigit() check of CPython
ipaddress._parse_octet. -/
def isPyDigit (c : Char) : Bool := 48 ≤ c.toNat && c.toNat ≤ 57

/-- Value of a list of decimal digit characters (most significant first),
as computed by Python int(...) on a digit string. -/
def digitsVal (l : List Char) : Nat := l.foldl (fun acc c => 10 * acc + (c.toNat - 48)) 0

/-- Embeds CPython ipaddress._parse_octet (Python 3.9.5+): the octet
string must be ASCII digits, at most 3 of them, without a leading zero
(unless it is exactly "0"), and its value must be at most 255. -/
def parseOctet : List Char → Option Nat
  | [] => none
  | c :: rest =>
    if !((c :: rest).all isPyDigit) then none
    else if 3 < (c :: rest).length then none
    else if c = '0' ∧ rest ≠ [] then none
    else if digitsVal (c :: rest) ≤ 255 then some (digitsVal (c :: rest)) else none

/-- An IPv4 address as four octet values, as stored (up to base-256
decomposition of the 32-bit integer) by ipaddress.IPv4Address. -/
structure IPv4 where
  o1 : Nat
  o2 : Nat
  o3 : Nat
  o4 : Nat

/-- Decimal digits of an octet value below 1000, most significant first;
embeds the decimal formatting used by str() on each octet. -/
def decOctChars (n : Nat) : List Char :=
  if n < 10 then [Nat.digitChar n]
  else if n < 100 then [Nat.digitChar (n / 10), Nat.digitChar (n % 10)]
  else [Nat.digitChar (n / 100), Nat.digitChar (n / 10 % 10), Nat.digitChar (n % 10)]

/-- Embeds str(ipaddress.IPv4Address(...)): dotted-quad decimal form,
as a character list. -/
def ipv4Chars (ip : IPv4) : List Char :=
  decOctChars ip.o1 ++ '.' :: (decOctChars ip.o2 ++ '.' :: (decOctChars ip.o3 ++ '.' :: decOctChars ip.o4))

/-- Embeds str(ipaddress.IPv4Address(...)) as a string. -/
def ipv4Str (ip : IPv4) : String := ⟨ipv4Chars ip⟩

/-- Embeds ipaddress.IPv4Address(str): split on dots, exactly four
octets, each parsed by _parse_octet. -/
def parseIPv4Chars (l : List Char) : Option IPv4 :=
  match pySplitOn '.' l with
  | [a, b, c, d] =>
    match parseOctet a, parseOctet b, parseOctet c, parseOctet d with
    | some x1, some x2, some x3, some x4 => some ⟨x1, x2, x3, x4⟩
    | _, _, _, _ => none
  | _ => none

/-- Embeds ipaddress.IPv4Address(str) on a Lean string. -/
def parseIPv4String (s : String) : Option IPv4 := parseIPv4Chars s.data

/-- Embeds the octet decomposition of ipaddress.IPv4Address(int). -/
def ipv4OfNat (n : Nat) : IPv4 :=
  ⟨n / 16777216 % 256, n / 65536 % 256, n / 256 % 256, n % 256⟩

/-- The 32-bit integer value of an IPv4 address. -/
def ipv4ToNat (ip : IPv4) : Nat :=
  ip.o1 * 16777216 + ip.o2 * 65536 + ip.o3 * 256 + ip.o4

/-- An IPv4 network (address plus prefix length), as stored by
ipaddress.IPv4Network. -/
structure IPv4Net where
  addr : IPv4
  prefixlen : Nat

/-- Decimal digit run parse (no sign), used for prefix lengths. -/
def parseDecNat (l : List Char) : Option Nat :=
  if l ≠ [] ∧ l.all isPyDigit then some (digitsVal l) else none

/-- Embeds ipaddress.IPv4Network(str) with its default strict=True:
an optional "/prefixlen" suffix (default 32), and the host bits must
be zero.  Only the decimal prefix-length form is modelled; the
netmask/hostmask string forms of the stdlib are not used by this repo. -/
def parseIPv4NetString (s : String) : Option IPv4Net :=
  match pySplitOn '/' s.data with
  | [a] =>
    match parseIPv4Chars a with
    | some ip => if ipv4ToNat ip % 2 ^ (32 - 32) = 0 then some ⟨ip, 32⟩ else none
    | none => none
  | [a, p] =>
    match parseIPv4Chars a, parseDecNat p with
    | some ip, some n =>
      if n ≤ 32 ∧ ipv4ToNat ip % 2 ^ (32 - n) = 0 then some ⟨ip, n⟩ else none
    | _, _ => none
  | _ => none

/-- Embeds str(ipaddress.IPv4Network(...)): "a.b.c.d/prefixlen". -/
def ipv4NetStr (net : IPv4Net) : String :=
  ⟨ipv4Chars net.addr ++ '/' :: decOctChars net.prefixlen⟩

/-- Embeds Python int(str): surrounding whitespace stripped, optional
sign, then decimal digits.  (Digit-group underscores accepted by
CPython are not modelled; no input in this development uses them.) -/
def pyParseIntChars (l : List Char) : Option Int :=
  match pyStripChars l with
  | '-' :: ds => if ds ≠ [] ∧ ds.all isPyDigit then some (-(digitsVal ds : Int)) else none
  | '+' :: ds => if ds ≠ [] ∧ ds.all isPyDigit then some ((digitsVal ds : Int)) else none
  | ds => if ds ≠ [] ∧ ds.all isPyDigit then some ((digitsVal ds : Int)) else none

/-- An untyped input value, as decoded from YAML/JSON by the host
automation system and handed to the filter (Python None / bool / int /
str / list / dict). -/
inductive Raw where
  | null : Raw
  | bool : Bool → Raw
  | num : Int → Raw
  | str : String → Raw
  | list : List Raw → Raw
  | dict : List (String × Raw) → Raw

/-- A JSON document, as produced by pydantic BaseModel.json(...) via
json.dumps.  Objects are key/value lists; the emission order of the
keys is part of the value. -/
inductive Json where
  | null : Json
  | bool : Bool → Json
  | num : Int → Json
  | str : String → Json
  | arr : List Json → Json
  | obj : List (String × Json) → Json

def Json.isNull : Json → Bool
  | .null => true
  | _ => false

mutual

/-- Serialization of a plain Python value (e.g. a user_context dict)
inside pydantic json(): the identity embedding of Raw into Json. -/
def rawToJson : Raw → Json
  | .null => .null
  | .bool b => .bool b
  | .num n => .num n
  | .str s => .str s
  | .list items => .arr (rawListToJson items)
  | .dict fs => .obj (rawDictToJson fs)

def rawListToJson : List Raw → List Json
  | [] => []
  | x :: xs => rawToJson x :: rawListToJson xs

def rawDictToJson : List (String × Raw) → List (String × Json)
  | [] => []
  | (k, v) :: kvs => (k, rawToJson v) :: rawDictToJson kvs

end

mutual

/-- Embeds the exclude_none=True behaviour of pydantic v1
BaseModel.dict()/_get_value: dict entries whose value is None and
sequence items that are None are removed, recursively. -/
def excludeNone : Json → Json
  | .null => .null
  | .bool b => .bool b
  | .num n => .num n
  | .str s => .str s
  | .arr items => .arr (excludeNoneList items)
  | .obj fields => .obj (excludeNoneFields fields)

def excludeNoneList : List Json → List Json
  | [] => []
  | x :: xs => if x.isNull then excludeNoneList xs else excludeNone x :: excludeNoneList xs

def excludeNoneFields : List (String × Json) → List (String × Json)
  | [] => []
  | (k, v) :: kvs =>
    if v.isNull then excludeNoneFields kvs else (k, excludeNone v) :: excludeNoneFields kvs

end

/-- Code-point comparison of strings as character lists: Python string
le, which json.dumps(sort_keys=True) sorts by. -/
def charListLe : List Char → List Char → Bool
  | [], _ => true
  | _ :: _, [] => false
  | c :: cs, d :: ds =>
    if c.toNat < d.toNat then true
    else if d.toNat < c.toNat then false
    else charListLe cs ds

/-- Key order used to sort JSON object fields. -/
def keyLeB (a b : String × Json) : Bool := charListLe a.1.data b.1.data

/-- Insert one field into a key-sorted field list. -/
def insertField (p : String × Json) : List (String × Json) → List (String × Json)
  | [] => [p]
  | q :: rest => if keyLeB p q then p :: q :: rest else q :: insertField p rest

/-- Insertion sort of object fields by key. -/
def sortFields : List (String × Json) → List (String × Json)
  | [] => []
  | p :: rest => insertField p (sortFields rest)

mutual

/-- Embeds the sort_keys=True behaviour of json.dumps inside pydantic
BaseModel.json(): every object's keys are emitted in sorted order,
recursively.  (The indent=2 text layout is formatting only and is not
modelled; the document tree is.) -/
def sortJson : Json → Json
  | .null => .null
  | .bool b => .bool b
  | .num n => .num n
  | .str s => .str s
  | .arr items => .arr (sortJsonList items)
  | .obj fields => .obj (sortFields (sortJsonFields fields))

def sortJsonList : List Json → List Json
  | [] => []
  | x :: xs => sortJson x :: sortJsonList xs

def sortJsonFields : List (String × Json) → List (String × Json)
  | [] => []
  | (k, v) :: kvs => (k, sortJson v) :: sortJsonFields kvs

end

mutual

/-- Whether a null value occurs anywhere in a document. -/
def containsNull : Json → Bool
  | .null => true
  | .bool _ => false
  | .num _ => false
  | .str _ => false
  | .arr items => containsNullList items
  | .obj fields => containsNullFields fields

def containsNullList : List Json → Bool
  | [] => false
  | x :: xs => containsNull x || containsNullList xs

def containsNullFields : List (String × Json) → Bool
  | [] => false
  | (_, v) :: kvs => containsNull v || containsNullFields kvs

end

mutual

/-- Whether a key occurs in any object anywhere in a document. -/
def jsonHasKey (k : String) : Json → Bool
  | .null => false
  | .bool _ => false
  | .num _ => false
  | .str _ => false
  | .arr items => jsonHasKeyList k items
  | .obj fields => jsonHasKeyFields k fields

def jsonHasKeyList (k : String) : List Json → Bool
  | [] => false
  | x :: xs => jsonHasKey k x || jsonHasKeyList k xs

def jsonHasKeyFields (k : String) : List (String × Json) → Bool
  | [] => false
  | (k2, v) :: kvs => k2 == k || jsonHasKey k v || jsonHasKeyFields k kvs

end

/-- Direct lookup of a key in a JSON object (None for non-objects). -/
def jsonTopGet (j : Json) (k : String) : Option Json :=
  match j with
  | .obj fields => (fields.find? (fun kv => kv.1 == k)).map (fun kv => kv.2)
  | _ => none

/-- No null value occurs anywhere in the document. -/
inductive NoNulls : Json → Prop where
  | bool : ∀ b, NoNulls (.bool b)
  | num : ∀ n, NoNulls (.num n)
  | str : ∀ s, NoNulls (.str s)
  | arr : ∀ items, (∀ j ∈ items, NoNulls j) → NoNulls (.arr items)
  | obj : ∀ fields, (∀ kv ∈ fields, NoNulls kv.2) → NoNulls (.obj fields)

/-- Every object in the document lists its keys in (code-point
lexicographic) sorted order. -/
inductive JsonSorted : Json → Prop where
  | null : JsonSorted .null
  | bool : ∀ b, JsonSorted (.bool b)
  | num : ∀ n, JsonSorted (.num n)
  | str : ∀ s, JsonSorted (.str s)
  | arr : ∀ items, (∀ j ∈ items, JsonSorted j) → JsonSorted (.arr items)
  | obj : ∀ fields, (∀ kv ∈ fields, JsonSorted kv.2) →
      List.Pairwise (fun a b => keyLeB a b = true) fields → JsonSorted (.obj fields)

/-- Validation result: Except models pydantic construction either
returning a validated value or raising ValidationError.  (pydantic
aggregates all field errors into one ValidationError; this embedding
returns the first error, which does not change whether construction
fails.) -/
abbrev V (α : Type) := Except String α

def isErr {α : Type} : V α → Bool
  | .error _ => true
  | .ok _ => false

/-- Embeds pydantic v1 str_validator: str passes through, int/float
pass through Python str() (bool is an int subclass, giving "True" /
"False"), anything else is a type error.  (bytes are not representable
in the input model.) -/
def str_validator : Raw → V String
  | .str s => .ok s
  | .num n => .ok (toString n)
  | .bool b => .ok (if b then "True" else "False")
  | _ => .error "str type expected"

/-- A str-typed field under the model Config's
anystr_strip_whitespace = True: validate, then strip. -/
def strField (r : Raw) : V String := (str_validator r).map pyStrip

/-- Embeds pydantic v1 int_validator: int passes through, bool becomes
0/1, str goes through Python int(...), anything else is an error. -/
def int_validator : Raw → V Int
  | .bool b => .ok (if b then 1 else 0)
  | .num n => .ok n
  | .str s =>
    match pyParseIntChars s.data with
    | some n => .ok n
    | none => .error "value is not a valid integer"
  | _ => .error "value is not a valid integer"

/-- A NonNegativeInt field: int validation plus the ge=0 constraint. -/
def nonNegIntField (r : Raw) : V Nat := do
  let n ← int_validator r
  if 0 ≤ n then pure n.toNat else .error "ensure this value is greater than or equal to 0"

/-- A PositiveInt field: int validation plus the gt=0 constraint. -/
def posIntField (r : Raw) : V Nat := do
  let n ← int_validator r
  if 0 < n then pure n.toNat else .error "ensure this value is greater than 0"

/-- Embeds pydantic v1 bool_validator: bool passes, ints 0/1 map to
False/True, the usual lowercased truth strings are accepted. -/
def bool_validator : Raw → V Bool
  | .bool b => .ok b
  | .num n =>
    if n = 0 then .ok false
    else if n = 1 then .ok true
    else .error "value could not be parsed to a boolean"
  | .str s =>
    let t := s.toLower
    if t ∈ ["1", "on", "t", "true", "y", "yes"] then .ok true
    else if t ∈ ["0", "off", "f", "false", "n", "no"] then .ok false
    else .error "value could not be parsed to a boolean"
  | _ => .error "value could not be parsed to a boolean"

/-- Embeds pydantic v1 path_validator for pathlib.Path fields: a str
becomes a Path, anything else is an error.  Paths are kept as their
textual form (pydantic json() re-encodes a Path through str()); the
cosmetic path normalization of pathlib is not modelled and no input in
this development triggers it. -/
def pathField : Raw → V String
  | .str s => .ok s
  | _ => .error "value is not a valid path"

/-- Embeds the pydantic v1 Literal[...] validator: the value must be
exactly one of the allowed strings (no coercion). -/
def literalField (allowed : List String) : Raw → V String
  | .str s => if s ∈ allowed then .ok s else .error "unexpected value"
  | _ => .error "unexpected value"

/-- Embeds ipaddress.IPv4Address(x) as used both by the pydantic
IPv4Address field type and by KeaPool4.validate_pool: a str is parsed
as dotted-quad, an int in [0, 2^32) is decomposed (bool being an int
subclass in Python), anything else raises. -/
def IPv4Address_ofRaw : Raw → V IPv4
  | .str s =>
    match parseIPv4String s with
    | some ip => .ok ip
    | none => .error "value is not a valid IPv4 address"
  | .num n =>
    if 0 ≤ n ∧ n < 4294967296 then .ok (ipv4OfNat n.toNat)
    else .error "value is not a valid IPv4 address"
  | .bool b => .ok (ipv4OfNat (if b then 1 else 0))
  | _ => .error "value is not a valid IPv4 address"

/-- Embeds ipaddress.IPv4Network(x) (strict) as used by the pydantic
IPv4Network field type. -/
def ipv4NetField : Raw → V IPv4Net
  | .str s =>
    match parseIPv4NetString s with
    | some net => .ok net
    | none => .error "value is not a valid IPv4 network"
  | .num n =>
    if 0 ≤ n ∧ n < 4294967296 then .ok ⟨ipv4OfNat n.toNat, 32⟩
    else .error "value is not a valid IPv4 network"
  | _ => .error "value is not a valid IPv4 network"

/-- Embeds pydantic v1 list field validation: the raw value must be a
list, whose items are validated elementwise. -/
def listField {α : Type} (p : Raw → V α) : Raw → V (List α)
  | .list items => items.mapM p
  | _ => .error "value is not a valid list"

/-- Embeds pydantic v1 dict field validation (used by user_context). -/
def dictField : Raw → V (List (String × Raw))
  | .dict fs => .ok fs
  | _ => .error "value is not a valid dict"

/-- First binding of a key in an input dict (Python dicts have unique
keys; find? takes the first). -/
def rawLookup (fs : List (String × Raw)) (k : String) : Option Raw :=
  (fs.find? (fun kv => kv.1 == k)).map (fun kv => kv.2)

/-- Embeds pydantic v1 field population under
Config.alias_generator = kea_alias_generator together with
allow_population_by_field_name = True: the alias is looked up first,
then the field name itself. -/
def fieldLookup (fs : List (String × Raw)) (name : String) : Option Raw :=
  match rawLookup fs (kea_alias_generator name) with
  | some v => some v
  | none => rawLookup fs name

/-- A required field with no default: absent or None is an error. -/
def reqField {α : Type} (fs : List (String × Raw)) (name : String) (p : Raw → V α) : V α :=
  match fieldLookup fs name with
  | none => .error (name ++ ": field required")
  | some .null => .error (name ++ ": none is not an allowed value")
  | some r => p r

/-- A required (non-Optional) field with a default or default_factory:
absent takes the default, None is an error. -/
def reqFieldD {α : Type} (fs : List (String × Raw)) (name : String) (p : Raw → V α) (d : α) : V α :=
  match fieldLookup fs name with
  | none => .ok d
  | some .null => .error (name ++ ": none is not an allowed value")
  | some r => p r

/-- An Optional field with no declared default: absent or None is
None. -/
def optRawField {α : Type} (fs : List (String × Raw)) (name : String) (p : Raw → V α) :
    V (Option α) :=
  match fieldLookup fs name with
  | none => .ok none
  | some .null => .ok none
  | some r => (p r).map some

/-- An Optional field with a non-None default or default_factory:
absent takes the default, an explicit None stays None. -/
def optRawFieldD {α : Type} (fs : List (String × Raw)) (name : String) (p : Raw → V α) (d : α) :
    V (Option α) :=
  match fieldLookup fs name with
  | none => .ok (some d)
  | some .null => .ok none
  | some r => (p r).map some

/-!
The model tree (kea.py lines 27-248).  Each pydantic class becomes a
structure with the source field names; KeaPoolCommon's fields are
inlined into KeaPool4 and KeaSubnet4 in pydantic inheritance order
(base fields first).  Each class gets fromDict (construction from an
input dict: field population in declaration order, then root
validators) and parse_obj (Model.parse_obj / nested-model validation:
the value must be a dict).
-/

structure KeaLoggerOutput where
  output : String
  pattern : Option String
  flush : Option Bool
  maxsize : Option Nat
  maxver : Option Nat

structure KeaLogger where
  name : String
  output_options : List KeaLoggerOutput
  severity : String
  debuglevel : Nat

structure KeaControlSocket where
  socket_type : String
  socket_name : String

structure KeaLeaseDatabase where
  type : Option String
  lfc_interval : Option Nat

structure KeaExpiredLeasesProcessing where
  reclaim_timer_wait_time : Option Nat
  flush_reclaimed_timer_wait_time : Option Nat
  hold_reclaimed_time : Option Nat
  max_reclaim_leases : Option Nat
  max_reclaim_time : Option Nat
  unwarned_reclaim_cycles : Option Nat

structure KeaDhcpOptionDef where
  name : Option String
  code : Option Nat
  space : Option String
  array : Option Bool
  encapsulation : Option String
  record_types : Option String
  type : String

structure KeaDhcpOption where
  name : Option String
  code : Option Nat
  space : Option String
  data : Option String
  always_send : Option Bool
  csv_format : Option Bool

structure KeaDhcpClientClass where
  name : String
  test : String
  option_data : Option (List KeaDhcpOption)
  option_def : Option (List KeaDhcpOptionDef)

structure KeaClient4Reservation where
  client_id : Option String
  circuit_id : Option String
  hw_address : Option String
  hostname : Option String
  ip_address : Option IPv4
  option_data : Option (List KeaDhcpOption)
  option_def : Option (List KeaDhcpOptionDef)

structure KeaRelay4 where
  ip_addresses : List IPv4

structure KeaPool4 where
  option_data : Option (List KeaDhcpOption)
  option_def : Option (List KeaDhcpOptionDef)
  server_hostname : Option String
  client_class : Option String
  require_client_classes : Option (List String)
  user_context : Option (List (String × Raw))
  pool : String

structure KeaSubnet4 where
  option_data : Option (List KeaDhcpOption)
  option_def : Option (List KeaDhcpOptionDef)
  server_hostname : Option String
  client_class : Option String
  require_client_classes : Option (List String)
  user_context : Option (List (String × Raw))
  authoritative : Option Bool
  subnet : IPv4Net
  pools : Option (List KeaPool4)
  min_valid_lifetime : Option Nat
  valid_lifetime : Option Nat
  max_valid_lifetime : Option Nat
  renew_timer : Option Nat
  rebind_timer : Option Nat
  relay : Option KeaRelay4
  interface : Option String
  reservations : Option (List KeaClient4Reservation)

structure KeaInterfacesConfig where
  interfaces : Option (List String)
  dhcp_socket_type : Option String
  outbound_interface : Option String
  re_detect : Option Bool

structure KeaSanityChecks where
  lease_checks : Option String

structure KeaDhcp4Config where
  authoritative : Option Bool
  interfaces_config : Option KeaInterfacesConfig
  sanity_checks : Option KeaSanityChecks
  lease_database : Option KeaLeaseDatabase
  control_socket : KeaControlSocket
  expired_leases_processing : Option KeaExpiredLeasesProcessing
  min_valid_lifetime : Option Nat
  valid_lifetime : Option Nat
  max_valid_lifetime : Option Nat
  renew_timer : Option Nat
  rebind_timer : Option Nat
  option_data : Option (List KeaDhcpOption)
  option_def : Option (List KeaDhcpOptionDef)
  client_classes : Option (List KeaDhcpClientClass)
  server_hostname : Option String
  subnet4 : Option (List KeaSubnet4)
  loggers : Option (List KeaLogger)

structure KeaConfigFileDhcp4 where
  Dhcp4 : KeaDhcp4Config

/-- Embeds KeaLoggerOutput construction (kea.py lines 37-43). -/
def KeaLoggerOutput.fromDict (fs : List (String × Raw)) : V KeaLoggerOutput := do
  let output ← reqField fs "output" pathField
  let pattern ← optRawField fs "pattern" strField
  let flush ← optRawFieldD fs "flush" bool_validator false
  let maxsize ← optRawField fs "maxsize" posIntField
  let maxver ← optRawField fs "maxver" posIntField
  pure ⟨output, pattern, flush, maxsize, maxver⟩

def KeaLoggerOutput.parse_obj : Raw → V KeaLoggerOutput
  | .dict fs => KeaLoggerOutput.fromDict fs
  | _ => .error "KeaLoggerOutput expected dict"

/-- Embeds KeaLogger construction (kea.py lines 46-51). -/
def KeaLogger.fromDict (fs : List (String × Raw)) : V KeaLogger := do
  let name ← reqField fs "name" strField
  let output_options ← reqField fs "output_options" (listField KeaLoggerOutput.parse_obj)
  let severity ← reqField fs "severity" strField
  let debuglevel ← reqFieldD fs "debuglevel" nonNegIntField 0
  pure ⟨name, output_options, severity, debuglevel⟩

def KeaLogger.parse_obj : Raw → V KeaLogger
  | .dict fs => KeaLogger.fromDict fs
  | _ => .error "KeaLogger expected dict"

/-- Embeds KeaLogger.get_default_dhcp4 (kea.py lines 53-66): the value
produced by the constructor calls there (the output str becomes a Path,
flush takes its default False). -/
def KeaLogger.get_default_dhcp4 : List KeaLogger :=
  [{ name := "kea-dhcp4",
     output_options := [{ output := "/var/log/kea/kea-dhcp4.log", pattern := none,
                          flush := some false, maxsize := none, maxver := none }],
     severity := "INFO",
     debuglevel := 0 }]

/-- Embeds KeaControlSocket construction (kea.py lines 69-72). -/
def KeaControlSocket.fromDict (fs : List (String × Raw)) : V KeaControlSocket := do
  let socket_type ← reqFieldD fs "socket_type" (literalField ["unix"]) "unix"
  let socket_name ← reqField fs "socket_name" pathField
  pure ⟨socket_type, socket_name⟩

def KeaControlSocket.parse_obj : Raw → V KeaControlSocket
  | .dict fs => KeaControlSocket.fromDict fs
  | _ => .error "KeaControlSocket expected dict"

/-- Embeds KeaControlSocket.get_default_kea4 (kea.py lines 74-78). -/
def KeaControlSocket.get_default_kea4 : KeaControlSocket :=
  ⟨"unix", "/tmp/kea4-ctrl-socket"⟩

/-- Embeds KeaLeaseDatabase construction (kea.py lines 86-89). -/
def KeaLeaseDatabase.fromDict (fs : List (String × Raw)) : V KeaLeaseDatabase := do
  let type ← optRawFieldD fs "type" strField "memfile"
  let lfc_interval ← optRawFieldD fs "lfc_interval" nonNegIntField 3600
  pure ⟨type, lfc_interval⟩

def KeaLeaseDatabase.parse_obj : Raw → V KeaLeaseDatabase
  | .dict fs => KeaLeaseDatabase.fromDict fs
  | _ => .error "KeaLeaseDatabase expected dict"

/-- The value of the default_factory call KeaLeaseDatabase() (kea.py
line 227). -/
def KeaLeaseDatabase.mk_default : KeaLeaseDatabase := ⟨some "memfile", some 3600⟩

/-- Embeds KeaExpiredLeasesProcessing construction (kea.py lines
92-99). -/
def KeaExpiredLeasesProcessing.fromDict (fs : List (String × Raw)) :
    V KeaExpiredLeasesProcessing := do
  let reclaim_timer_wait_time ← optRawFieldD fs "reclaim_timer_wait_time" nonNegIntField 10
  let flush_reclaimed_timer_wait_time ←
    optRawFieldD fs "flush_reclaimed_timer_wait_time" nonNegIntField 25
  let hold_reclaimed_time ← optRawFieldD fs "hold_reclaimed_time" nonNegIntField 3600
  let max_reclaim_leases ← optRawFieldD fs "max_reclaim_leases" nonNegIntField 100
  let max_reclaim_time ← optRawFieldD fs "max_reclaim_time" nonNegIntField 250
  let unwarned_reclaim_cycles ← optRawFieldD fs "unwarned_reclaim_cycles" nonNegIntField 5
  pure ⟨reclaim_timer_wait_time, flush_reclaimed_timer_wait_time, hold_reclaimed_time,
        max_reclaim_leases, max_reclaim_time, unwarned_reclaim_cycles⟩

def KeaExpiredLeasesProcessing.parse_obj : Raw → V KeaExpiredLeasesProcessing
  | .dict fs => KeaExpiredLeasesProcessing.fromDict fs
  | _ => .error "KeaExpiredLeasesProcessing expected dict"

/-- The value of the default_factory call KeaExpiredLeasesProcessing()
(kea.py line 229). -/
def KeaExpiredLeasesProcessing.mk_default : KeaExpiredLeasesProcessing :=
  ⟨some 10, some 25, some 3600, some 100, some 250, some 5⟩

/-- Python truthiness of an optional validated str value, as tested by
any([...]) in validate_code_or_name: None and "" are falsy. -/
def pyTruthyStr : Option String → Bool
  | none => false
  | some s => !(s == "")

/-- Python truthiness of an optional validated int value: None and 0
are falsy. -/
def pyTruthyNat : Option Nat → Bool
  | none => false
  | some n => !(n == 0)

/-- Embeds KeaDhcpOption construction (kea.py lines 117-128,
inheriting name/code/space from KeaDhcpOptionBase, lines 102-106):
field validation in declaration order, then the
validate_code_or_name root validator, which raises unless
any([values.get(x) for x in ["name", "code"]]) is truthy. -/
def KeaDhcpOption.fromDict (fs : List (String × Raw)) : V KeaDhcpOption := do
  let name ← optRawField fs "name" strField
  let code ← optRawField fs "code" nonNegIntField
  let space ← optRawField fs "space" strField
  let data ← optRawField fs "data" strField
  let always_send ← optRawField fs "always_send" bool_validator
  let csv_format ← optRawField fs "csv_format" bool_validator
  if pyTruthyStr name || pyTruthyNat code then
    pure ⟨name, code, space, data, always_send, csv_format⟩
  else
    .error "Either name or code must be set."

def KeaDhcpOption.parse_obj : Raw → V KeaDhcpOption
  | .dict fs => KeaDhcpOption.fromDict fs
  | _ => .error "KeaDhcpOption expected dict"

/-- Embeds KeaDhcpOptionDef construction (kea.py lines 109-114). -/
def KeaDhcpOptionDef.fromDict (fs : List (String × Raw)) : V KeaDhcpOptionDef := do
  let name ← optRawField fs "name" strField
  let code ← optRawField fs "code" nonNegIntField
  let space ← optRawField fs "space" strField
  let array ← optRawField fs "array" bool_validator
  let encapsulation ← optRawField fs "encapsulation" strField
  let record_types ← optRawField fs "record_types" strField
  let type ← reqField fs "type" strField
  pure ⟨name, code, space, array, encapsulation, record_types, type⟩

def KeaDhcpOptionDef.parse_obj : Raw → V KeaDhcpOptionDef
  | .dict fs => KeaDhcpOptionDef.fromDict fs
  | _ => .error "KeaDhcpOptionDef expected dict"

/-- Embeds KeaDhcpClientClass construction (kea.py lines 131-136). -/
def KeaDhcpClientClass.fromDict (fs : List (String × Raw)) : V KeaDhcpClientClass := do
  let name ← reqField fs "name" strField
  let test ← reqField fs "test" strField
  let option_data ← optRawField fs "option_data" (listField KeaDhcpOption.parse_obj)
  let option_def ← optRawField fs "option_def" (listField KeaDhcpOptionDef.parse_obj)
  pure ⟨name, test, option_data, option_def⟩

def KeaDhcpClientClass.parse_obj : Raw → V KeaDhcpClientClass
  | .dict fs => KeaDhcpClientClass.fromDict fs
  | _ => .error "KeaDhcpClientClass expected dict"

/-- Embeds KeaClient4Reservation construction (kea.py lines 140-148). -/
def KeaClient4Reservation.fromDict (fs : List (String × Raw)) : V KeaClient4Reservation := do
  let client_id ← optRawField fs "client_id" strField
  let circuit_id ← optRawField fs "circuit_id" strField
  let hw_address ← optRawField fs "hw_address" strField
  let hostname ← optRawField fs "hostname" strField
  let ip_address ← optRawField fs "ip_address" IPv4Address_ofRaw
  let option_data ← optRawField fs "option_data" (listField KeaDhcpOption.parse_obj)
  let option_def ← optRawField fs "option_def" (listField KeaDhcpOptionDef.parse_obj)
  pure ⟨client_id, circuit_id, hw_address, hostname, ip_address, option_data, option_def⟩

def KeaClient4Reservation.parse_obj : Raw → V KeaClient4Reservation
  | .dict fs => KeaClient4Reservation.fromDict fs
  | _ => .error "KeaClient4Reservation expected dict"

/-- Embeds KeaRelay4 construction (kea.py lines 150-152). -/
def KeaRelay4.fromDict (fs : List (String × Raw)) : V KeaRelay4 := do
  let ip_addresses ← reqField fs "ip_addresses" (listField IPv4Address_ofRaw)
  pure ⟨ip_addresses⟩

def KeaRelay4.parse_obj : Raw → V KeaRelay4
  | .dict fs => KeaRelay4.fromDict fs
  | _ => .error "KeaRelay4 expected dict"

/-- The list branch of KeaPool4.validate_pool (kea.py lines 172-185):
the list must have 1 or 2 entries, every entry must parse as an
IPv4Address (the first failure aborts the comprehension, the except
branch replaces the message), a singleton is duplicated, and the
result is the " - ".join of the octet-formatted addresses. -/
def validate_pool_list (v : List Raw) : V Raw :=
  if 2 < v.length ∨ v.length < 1 then
    .error "Pool list must have length 0 < len(pool) <= 2"
  else
    match v.mapM IPv4Address_ofRaw with
    | .error _ => .error "Pool entries must be valid IPv4 addresses"
    | .ok addresses =>
      match addresses with
      | [a1] => .ok (.str (ipv4Str a1 ++ " - " ++ ipv4Str a1))
      | [a1, a2] => .ok (.str (ipv4Str a1 ++ " - " ++ ipv4Str a2))
      | _ => .error "Undetermined state"

/-- Embeds KeaPool4.validate_pool (kea.py lines 170-188), a pre=True
validator on the pool field: a list is range-normalized, a string is
split on "-", its parts stripped, and the list branch applied to them
(the source does this by a recursive call with a list argument, here
inlined through validate_pool_list), and any other value is returned
unchanged. -/
def KeaPool4.validate_pool : Raw → V Raw
  | .list v => validate_pool_list v
  | .str s => validate_pool_list ((pySplitOn '-' s.data).map (fun part => Raw.str ⟨pyStripChars part⟩))
  | v => .ok v

/-- The pool field of KeaPool4 (kea.py line 168): the pre-validator
runs first on the raw value (even on None), then the declared str type
applies: None is rejected (the field is not Optional), any other value
goes through str validation with whitespace stripping. -/
def poolField (fs : List (String × Raw)) : V String :=
  match fieldLookup fs "pool" with
  | none => .error "pool: field required"
  | some r => do
    let r2 ← KeaPool4.validate_pool r
    match r2 with
    | .null => .error "pool: none is not an allowed value"
    | v => strField v

/-- Embeds KeaPool4 construction (kea.py lines 166-188; the common
fields are inherited from KeaPoolCommon, lines 154-163). -/
def KeaPool4.fromDict (fs : List (String × Raw)) : V KeaPool4 := do
  let option_data ← optRawField fs "option_data" (listField KeaDhcpOption.parse_obj)
  let option_def ← optRawField fs "option_def" (listField KeaDhcpOptionDef.parse_obj)
  let server_hostname ← optRawField fs "server_hostname" strField
  let client_class ← optRawField fs "client_class" strField
  let require_client_classes ← optRawField fs "require_client_classes" (listField strField)
  let user_context ← optRawField fs "user_context" dictField
  let pool ← poolField fs
  pure ⟨option_data, option_def, server_hostname, client_class, require_client_classes,
        user_context, pool⟩

def KeaPool4.parse_obj : Raw → V KeaPool4
  | .dict fs => KeaPool4.fromDict fs
  | _ => .error "KeaPool4 expected dict"

/-- Embeds KeaSubnet4 construction (kea.py lines 191-205, common
fields inherited from KeaPoolCommon first). -/
def KeaSubnet4.fromDict (fs : List (String × Raw)) : V KeaSubnet4 := do
  let option_data ← optRawField fs "option_data" (listField KeaDhcpOption.parse_obj)
  let option_def ← optRawField fs "option_def" (listField KeaDhcpOptionDef.parse_obj)
  let server_hostname ← optRawField fs "server_hostname" strField
  let client_class ← optRawField fs "client_class" strField
  let require_client_classes ← optRawField fs "require_client_classes" (listField strField)
  let user_context ← optRawField fs "user_context" dictField
  let authoritative ← optRawField fs "authoritative" bool_validator
  let subnet ← reqField fs "subnet" ipv4NetField
  let pools ← optRawField fs "pools" (listField KeaPool4.parse_obj)
  let min_valid_lifetime ← optRawField fs "min_valid_lifetime" nonNegIntField
  let valid_lifetime ← optRawField fs "valid_lifetime" nonNegIntField
  let max_valid_lifetime ← optRawField fs "max_valid_lifetime" nonNegIntField
  let renew_timer ← optRawField fs "renew_timer" nonNegIntField
  let rebind_timer ← optRawField fs "rebind_timer" nonNegIntField
  let relay ← optRawField fs "relay" KeaRelay4.parse_obj
  let interface ← optRawField fs "interface" strField
  let reservations ← optRawField fs "reservations" (listField KeaClient4Reservation.parse_obj)
  pure ⟨option_data, option_def, server_hostname, client_class, require_client_classes,
        user_context, authoritative, subnet, pools, min_valid_lifetime, valid_lifetime,
        max_valid_lifetime, renew_timer, rebind_timer, relay, interface, reservations⟩

def KeaSubnet4.parse_obj : Raw → V KeaSubnet4
  | .dict fs => KeaSubnet4.fromDict fs
  | _ => .error "KeaSubnet4 expected dict"

/-- Embeds KeaInterfacesConfig construction (kea.py lines 208-213). -/
def KeaInterfacesConfig.fromDict (fs : List (String × Raw)) : V KeaInterfacesConfig := do
  let interfaces ← optRawField fs "interfaces" (listField strField)
  let dhcp_socket_type ← optRawField fs "dhcp_socket_type" (literalField ["raw", "udp"])
  let outbound_interface ←
    optRawFieldD fs "outbound_interface" (literalField ["use-routing", "same-as-inbound"])
      "same-as-inbound"
  let re_detect ← optRawFieldD fs "re_detect" bool_validator true
  pure ⟨interfaces, dhcp_socket_type, outbound_interface, re_detect⟩

def KeaInterfacesConfig.parse_obj : Raw → V KeaInterfacesConfig
  | .dict fs => KeaInterfacesConfig.fromDict fs
  | _ => .error "KeaInterfacesConfig expected dict"

/-- Embeds KeaSanityChecks construction (kea.py lines 216-218). -/
def KeaSanityChecks.fromDict (fs : List (String × Raw)) : V KeaSanityChecks := do
  let lease_checks ←
    optRawFieldD fs "lease_checks" (literalField ["none", "warn", "fix", "fix-del", "del"])
      "fix-del"
  pure ⟨lease_checks⟩

def KeaSanityChecks.parse_obj : Raw → V KeaSanityChecks
  | .dict fs => KeaSanityChecks.fromDict fs
  | _ => .error "KeaSanityChecks expected dict"

/-- Embeds KeaDhcp4Config construction (kea.py lines 222-243).
Unknown input keys are never looked at: under pydantic v1 the line
extra_config: Extra.allow in BaseKeaModel.Config (kea.py line 30) is a
bare type annotation, not an assignment to the recognized option
extra, so the inherited default Extra.ignore applies and extra fields
are silently dropped. -/
def KeaDhcp4Config.fromDict (fs : List (String × Raw)) : V KeaDhcp4Config := do
  let authoritative ← optRawField fs "authoritative" bool_validator
  let interfaces_config ← optRawField fs "interfaces_config" KeaInterfacesConfig.parse_obj
  let sanity_checks ← optRawField fs "sanity_checks" KeaSanityChecks.parse_obj
  let lease_database ←
    optRawFieldD fs "lease_database" KeaLeaseDatabase.parse_obj KeaLeaseDatabase.mk_default
  let control_socket ←
    reqFieldD fs "control_socket" KeaControlSocket.parse_obj KeaControlSocket.get_default_kea4
  let expired_leases_processing ←
    optRawFieldD fs "expired_leases_processing" KeaExpiredLeasesProcessing.parse_obj
      KeaExpiredLeasesProcessing.mk_default
  let min_valid_lifetime ← optRawField fs "min_valid_lifetime" nonNegIntField
  let valid_lifetime ← optRawFieldD fs "valid_lifetime" nonNegIntField 3600
  let max_valid_lifetime ← optRawField fs "max_valid_lifetime" nonNegIntField
  let renew_timer ← optRawField fs "renew_timer" nonNegIntField
  let rebind_timer ← optRawField fs "rebind_timer" nonNegIntField
  let option_data ← optRawField fs "option_data" (listField KeaDhcpOption.parse_obj)
  let option_def ← optRawField fs "option_def" (listField KeaDhcpOptionDef.parse_obj)
  let client_classes ← optRawField fs "client_classes" (listField KeaDhcpClientClass.parse_obj)
  let server_hostname ← optRawField fs "server_hostname" strField
  let subnet4 ← optRawField fs "subnet4" (listField KeaSubnet4.parse_obj)
  let loggers ←
    optRawFieldD fs "loggers" (listField KeaLogger.parse_obj) KeaLogger.get_default_dhcp4
  pure ⟨authoritative, interfaces_config, sanity_checks, lease_database, control_socket,
        expired_leases_processing, min_valid_lifetime, valid_lifetime, max_valid_lifetime,
        renew_timer, rebind_timer, option_data, option_def, client_classes, server_hostname,
        subnet4, loggers⟩

/-- Embeds KeaDhcp4Config.parse_obj: the argument must be a mapping. -/
def KeaDhcp4Config.parse_obj : Raw → V KeaDhcp4Config
  | .dict fs => KeaDhcp4Config.fromDict fs
  | _ => .error "KeaDhcp4Config expected dict"

/-!
Serialization: BaseModel.dict(by_alias=True) emits every declared
field, keyed by its alias (kea_alias_generator of the field name), in
declaration order, with None for absent optional values; json.dumps
str()-encodes Path / IPv4Address / IPv4Network values.  The
exclude_none and sort_keys passes are the excludeNone and sortJson
functions above.
-/

def jStr (o : Option String) : Json :=
  match o with
  | none => .null
  | some s => .str s

def jNat (o : Option Nat) : Json :=
  match o with
  | none => .null
  | some n => .num n

def jBool (o : Option Bool) : Json :=
  match o with
  | none => .null
  | some b => .bool b

def jList {α : Type} (f : α → Json) (o : Option (List α)) : Json :=
  match o with
  | none => .null
  | some l => .arr (l.map f)

def KeaLoggerOutput.toJson (x : KeaLoggerOutput) : Json :=
  .obj [ (kea_alias_generator "output", .str x.output),
         (kea_alias_generator "pattern", jStr x.pattern),
         (kea_alias_generator "flush", jBool x.flush),
         (kea_alias_generator "maxsize", jNat x.maxsize),
         (kea_alias_generator "maxver", jNat x.maxver) ]

def KeaLogger.toJson (x : KeaLogger) : Json :=
  .obj [ (kea_alias_generator "name", .str x.name),
         (kea_alias_generator "output_options", .arr (x.output_options.map KeaLoggerOutput.toJson)),
         (kea_alias_generator "severity", .str x.severity),
         (kea_alias_generator "debuglevel", .num x.debuglevel) ]

def KeaControlSocket.toJson (x : KeaControlSocket) : Json :=
  .obj [ (kea_alias_generator "socket_type", .str x.socket_type),
         (kea_alias_generator "socket_name", .str x.socket_name) ]

def KeaLeaseDatabase.toJson (x : KeaLeaseDatabase) : Json :=
  .obj [ (kea_alias_generator "type", jStr x.type),
         (kea_alias_generator "lfc_interval", jNat x.lfc_interval) ]

def KeaExpiredLeasesProcessing.toJson (x : KeaExpiredLeasesProcessing) : Json :=
  .obj [ (kea_alias_generator "reclaim_timer_wait_time", jNat x.reclaim_timer_wait_time),
         (kea_alias_generator "flush_reclaimed_timer_wait_time",
           jNat x.flush_reclaimed_timer_wait_time),
         (kea_alias_generator "hold_reclaimed_time", jNat x.hold_reclaimed_time),
         (kea_alias_generator "max_reclaim_leases", jNat x.max_reclaim_leases),
         (kea_alias_generator "max_reclaim_time", jNat x.max_reclaim_time),
         (kea_alias_generator "unwarned_reclaim_cycles", jNat x.unwarned_reclaim_cycles) ]

def KeaDhcpOption.toJson (x : KeaDhcpOption) : Json :=
  .obj [ (kea_alias_generator "name", jStr x.name),
         (kea_alias_generator "code", jNat x.code),
         (kea_alias_generator "space", jStr x.space),
         (kea_alias_generator "data", jStr x.data),
         (kea_alias_generator "always_send", jBool x.always_send),
         (kea_alias_generator "csv_format", jBool x.csv_format) ]

def KeaDhcpOptionDef.toJson (x : KeaDhcpOptionDef) : Json :=
  .obj [ (kea_alias_generator "name", jStr x.name),
         (kea_alias_generator "code", jNat x.code),
         (kea_alias_generator "space", jStr x.space),
         (kea_alias_generator "array", jBool x.array),
         (kea_alias_generator "encapsulation", jStr x.encapsulation),
         (kea_alias_generator "record_types", jStr x.record_types),
         (kea_alias_generator "type", .str x.type) ]

def KeaDhcpClientClass.toJson (x : KeaDhcpClientClass) : Json :=
  .obj [ (kea_alias_generator "name", .str x.name),
         (kea_alias_generator "test", .str x.test),
         (kea_alias_generator "option_data", jList KeaDhcpOption.toJson x.option_data),
         (kea_alias_generator "option_def", jList KeaDhcpOptionDef.toJson x.option_def) ]

def KeaClient4Reservation.toJson (x : KeaClient4Reservation) : Json :=
  .obj [ (kea_alias_generator "client_id", jStr x.client_id),
         (kea_alias_generator "circuit_id", jStr x.circuit_id),
         (kea_alias_generator "hw_address", jStr x.hw_address),
         (kea_alias_generator "hostname", jStr x.hostname),
         (kea_alias_generator "ip_address",
           match x.ip_address with
           | none => .null
           | some ip => .str (ipv4Str ip)),
         (kea_alias_generator "option_data", jList KeaDhcpOption.toJson x.option_data),
         (kea_alias_generator "option_def", jList KeaDhcpOptionDef.toJson x.option_def) ]

def KeaRelay4.toJson (x : KeaRelay4) : Json :=
  .obj [ (kea_alias_generator "ip_addresses",
           .arr (x.ip_addresses.map (fun ip => .str (ipv4Str ip)))) ]

def jUserContext (o : Option (List (String × Raw))) : Json :=
  match o with
  | none => .null
  | some d => rawToJson (.dict d)

def KeaPool4.toJson (x : KeaPool4) : Json :=
  .obj [ (kea_alias_generator "option_data", jList KeaDhcpOption.toJson x.option_data),
         (kea_alias_generator "option_def", jList KeaDhcpOptionDef.toJson x.option_def),
         (kea_alias_generator "server_hostname", jStr x.server_hostname),
         (kea_alias_generator "client_class", jStr x.client_class),
         (kea_alias_generator "require_client_classes",
           jList Json.str x.require_client_classes),
         (kea_alias_generator "user_context", jUserContext x.user_context),
         (kea_alias_generator "pool", .str x.pool) ]

def KeaSubnet4.toJson (x : KeaSubnet4) : Json :=
  .obj [ (kea_alias_generator "option_data", jList KeaDhcpOption.toJson x.option_data),
         (kea_alias_generator "option_def", jList KeaDhcpOptionDef.toJson x.option_def),
         (kea_alias_generator "server_hostname", jStr x.server_hostname),
         (kea_alias_generator "client_class", jStr x.client_class),
         (kea_alias_generator "require_client_classes",
           jList Json.str x.require_client_classes),
         (kea_alias_generator "user_context", jUserContext x.user_context),
         (kea_alias_generator "authoritative", jBool x.authoritative),
         (kea_alias_generator "subnet", .str (ipv4NetStr x.subnet)),
         (kea_alias_generator "pools", jList KeaPool4.toJson x.pools),
         (kea_alias_generator "min_valid_lifetime", jNat x.min_valid_lifetime),
         (kea_alias_generator "valid_lifetime", jNat x.valid_lifetime),
         (kea_alias_generator "max_valid_lifetime", jNat x.max_valid_lifetime),
         (kea_alias_generator "renew_timer", jNat x.renew_timer),
         (kea_alias_generator "rebind_timer", jNat x.rebind_timer),
         (kea_alias_generator "relay",
           match x.relay with
           | none => .null
           | some r => KeaRelay4.toJson r),
         (kea_alias_generator "interface", jStr x.interface),
         (kea_alias_generator "reservations",
           jList KeaClient4Reservation.toJson x.reservations) ]

def KeaInterfacesConfig.toJson (x : KeaInterfacesConfig) : Json :=
  .obj [ (kea_alias_generator "interfaces", jList Json.str x.interfaces),
         (kea_alias_generator "dhcp_socket_type", jStr x.dhcp_socket_type),
         (kea_alias_generator "outbound_interface", jStr x.outbound_interface),
         (kea_alias_generator "re_detect", jBool x.re_detect) ]

def KeaSanityChecks.toJson (x : KeaSanityChecks) : Json :=
  .obj [ (kea_alias_generator "lease_checks", jStr x.lease_checks) ]

def KeaDhcp4Config.toJson (x : KeaDhcp4Config) : Json :=
  .obj [ (kea_alias_generator "authoritative", jBool x.authoritative),
         (kea_alias_generator "interfaces_config",
           match x.interfaces_config with
           | none => .null
           | some c => KeaInterfacesConfig.toJson c),
         (kea_alias_generator "sanity_checks",
           match x.sanity_checks with
           | none => .null
           | some c => KeaSanityChecks.toJson c),
         (kea_alias_generator "lease_database",
           match x.lease_database with
           | none => .null
           | some c => KeaLeaseDatabase.toJson c),
         (kea_alias_generator "control_socket", KeaControlSocket.toJson x.control_socket),
         (kea_alias_generator "expired_leases_processing",
           match x.expired_leases_processing with
           | none => .null
           | some c => KeaExpiredLeasesProcessing.toJson c),
         (kea_alias_generator "min_valid_lifetime", jNat x.min_valid_lifetime),
         (kea_alias_generator "valid_lifetime", jNat x.valid_lifetime),
         (kea_alias_generator "max_valid_lifetime", jNat x.max_valid_lifetime),
         (kea_alias_generator "renew_timer", jNat x.renew_timer),
         (kea_alias_generator "rebind_timer", jNat x.rebind_timer),
         (kea_alias_generator "option_data", jList KeaDhcpOption.toJson x.option_data),
         (kea_alias_generator "option_def", jList KeaDhcpOptionDef.toJson x.option_def),
         (kea_alias_generator "client_classes", jList KeaDhcpClientClass.toJson x.client_classes),
         (kea_alias_generator "server_hostname", jStr x.server_hostname),
         (kea_alias_generator "subnet4", jList KeaSubnet4.toJson x.subnet4),
         (kea_alias_generator "loggers", jList KeaLogger.toJson x.loggers) ]

def KeaConfigFileDhcp4.toJson (x : KeaConfigFileDhcp4) : Json :=
  .obj [ (kea_alias_generator "Dhcp4", KeaDhcp4Config.toJson x.Dhcp4) ]

/-- Embeds KeaFilters.get_kea4_config (kea.py lines 253-255):
KeaDhcp4Config.parse_obj on the input, wrapped into
KeaConfigFileDhcp4 and rendered by .json(by_alias=True, indent=2,
sort_keys=True, exclude_none=True).  The output is modelled as the
emitted JSON document tree (indentation is text layout only). -/
def KeaFilters.get_kea4_config (data : Raw) : V Json := do
  let dhcp4 ← KeaDhcp4Config.parse_obj data
  pure (sortJson (excludeNone (KeaConfigFileDhcp4.toJson ⟨dhcp4⟩)))

/-- A Python attribute value as seen by the filter-registry loop:
only whether it is callable and which function it names matter. -/
inductive PyValue where
  | func : String → PyValue
  | strV : String → PyValue
  | noneV : PyValue
  | descriptor : PyValue

def pyCallable : PyValue → Bool
  | .func _ => true
  | _ => false

/-- The class __dict__ of KeaFilters (kea.py lines 251-263), in
definition order as CPython stores it: the implicit __module__,
__qualname__, __dict__, __weakref__ and __doc__ entries plus the two
defined methods.  The two descriptor entries are not callable and the
string/None entries are not either. -/
def KeaFilters.classDict : List (String × PyValue) :=
  [ ("__module__", .strV "kea"),
    ("__qualname__", .strV "KeaFilters"),
    ("get_kea4_config", .func "get_kea4_config"),
    ("filters", .func "filters"),
    ("__dict__", .descriptor),
    ("__weakref__", .descriptor),
    ("__doc__", .noneV) ]

/-- Embeds name.startswith("_") for the one-character prefix used in
KeaFilters.filters: the first character is an underscore. -/
def pyStartsWithUnderscore (s : String) : Bool :=
  match s.data with
  | [] => false
  | c :: _ => c = '_'

/-- Embeds KeaFilters.filters (kea.py lines 257-263): keep the class
attributes whose name does not start with an underscore and whose
value is callable (each mapped to the bound method getattr(self,
name), modelled by the same PyValue), then del the "filters" entry
(which is present, so no KeyError). -/
def KeaFilters.filters : List (String × PyValue) :=
  (KeaFilters.classDict.filter
    (fun kv => !pyStartsWithUnderscore kv.1 && pyCallable kv.2)).filter
    (fun kv => kv.1 != "filters")

/-- Embeds FilterModule.filters (kea.py lines 267-270): a dict
comprehension copying KeaFilters().filters(). -/
def FilterModule.filters : List (String × PyValue) :=
  KeaFilters.filters.map (fun kv => kv)

/-- The document rendered for the empty input dict: every field takes
its default.  Shared expected value for the default-rendering
theorems. -/
def defaultRenderedDhcp4 : Json :=
  .obj [("Dhcp4", .obj [
    ("control-socket", .obj [
      ("socket-name", .str "/tmp/kea4-ctrl-socket"),
      ("socket-type", .str "unix")]),
    ("expired-leases-processing", .obj [
      ("flush-reclaimed-timer-wait-time", .num 25),
      ("hold-reclaimed-time", .num 3600),
      ("max-reclaim-leases", .num 100),
      ("max-reclaim-time", .num 250),
      ("reclaim-timer-wait-time", .num 10),
      ("unwarned-reclaim-cycles", .num 5)]),
    ("lease-database", .obj [
      ("lfc-interval", .num 3600),
      ("type", .str "memfile")]),
    ("loggers", .arr [.obj [
      ("debuglevel", .num 0),
      ("name", .str "kea-dhcp4"),
      ("output_options", .arr [.obj [
        ("flush", .bool false),
        ("output", .str "/var/log/kea/kea-dhcp4.log")]]),
      ("severity", .str "INFO")]]),
    ("valid-lifetime", .num 3600)])]

/-!
Generic lemmas about the serialization pipeline.
-/

theorem Json.myInduction (P : Json → Prop)
    (h0 : P .null) (h1 : ∀ b, P (.bool b)) (h2 : ∀ n, P (.num n)) (h3 : ∀ s, P (.str s))
    (h4 : ∀ items, (∀ j ∈ items, P j) → P (.arr items))
    (h5 : ∀ fields, (∀ kv ∈ fields, P kv.2) → P (.obj fields)) :
    ∀ j, P j
  | .null => h0
  | .bool b => h1 b
  | .num n => h2 n
  | .str s => h3 s
  | .arr items => h4 items (fun j hj => Json.myInduction P h0 h1 h2 h3 h4 h5 j)
  | .obj fields => h5 fields (fun kv hkv => Json.myInduction P h0 h1 h2 h3 h4 h5 kv.2)
termination_by j => sizeOf j
decreasing_by
  · have hlt := List.sizeOf_lt_of_mem hj
    simp
    omega
  · have hlt := List.sizeOf_lt_of_mem hkv
    obtain ⟨k, v⟩ := kv
    simp at hlt ⊢
    omega

theorem Json.isNull_eq_false_iff (j : Json) : j.isNull = false ↔ j ≠ .null := by
  cases j <;> simp [Json.isNull]

theorem mem_excludeNoneList (l : List Json) (j : Json) (h : j ∈ excludeNoneList l) :
    ∃ x, x ∈ l ∧ x.isNull = false ∧ j = excludeNone x := by
  induction l with
  | nil => simp [excludeNoneList] at h
  | cons x xs ih =>
    rw [excludeNoneList] at h
    by_cases hx : x.isNull
    · simp [hx] at h
      obtain ⟨y, hy1, hy2, hy3⟩ := ih h
      exact ⟨y, List.mem_cons_of_mem x hy1, hy2, hy3⟩
    · simp [hx] at h
      rcases h with h | h
      · exact ⟨x, List.mem_cons_self x xs, by simpa using hx, h⟩
      · obtain ⟨y, hy1, hy2, hy3⟩ := ih h
        exact ⟨y, List.mem_cons_of_mem x hy1, hy2, hy3⟩

theorem mem_excludeNoneFields (l : List (String × Json)) (kv : String × Json)
    (h : kv ∈ excludeNoneFields l) :
    ∃ k v, (k, v) ∈ l ∧ Json.isNull v = false ∧ kv = (k, excludeNone v) := by
  induction l with
  | nil => simp [excludeNoneFields] at h
  | cons p ps ih =>
    obtain ⟨k0, v0⟩ := p
    rw [excludeNoneFields] at h
    by_cases hv : v0.isNull
    · simp [hv] at h
      obtain ⟨k, v, h1, h2, h3⟩ := ih h
      exact ⟨k, v, List.mem_cons_of_mem _ h1, h2, h3⟩
    · simp [hv] at h
      rcases h with h | h
      · exact ⟨k0, v0, List.mem_cons_self _ _, by simpa using hv, h⟩
      · obtain ⟨k, v, h1, h2, h3⟩ := ih h
        exact ⟨k, v, List.mem_cons_of_mem _ h1, h2, h3⟩

/-- The exclude_none pass removes every null from a non-null
document. -/
theorem excludeNone_noNulls : ∀ j : Json, j ≠ .null → NoNulls (excludeNone j) := by
  refine Json.myInduction (fun j => j ≠ .null → NoNulls (excludeNone j)) ?_ ?_ ?_ ?_ ?_ ?_
  · intro h
    exact absurd rfl h
  · intro b _
    exact NoNulls.bool b
  · intro n _
    exact NoNulls.num n
  · intro s _
    exact NoNulls.str s
  · intro items ih _
    show NoNulls (.arr (excludeNoneList items))
    refine NoNulls.arr _ ?_
    intro j hj
    obtain ⟨x, hx1, hx2, hx3⟩ := mem_excludeNoneList items j hj
    subst hx3
    exact ih x hx1 ((Json.isNull_eq_false_iff x).mp hx2)
  · intro fields ih _
    show NoNulls (.obj (excludeNoneFields fields))
    refine NoNulls.obj _ ?_
    intro kv hkv
    obtain ⟨k, v, h1, h2, h3⟩ := mem_excludeNoneFields fields kv hkv
    subst h3
    exact ih (k, v) h1 ((Json.isNull_eq_false_iff v).mp h2)

theorem mem_sortJsonList (l : List Json) (j : Json) (h : j ∈ sortJsonList l) :
    ∃ x ∈ l, j = sortJson x := by
  induction l with
  | nil => simp [sortJsonList] at h
  | cons x xs ih =>
    rw [sortJsonList] at h
    rcases List.mem_cons.mp h with h | h
    · exact ⟨x, List.mem_cons_self x xs, h⟩
    · obtain ⟨y, hy1, hy2⟩ := ih h
      exact ⟨y, List.mem_cons_of_mem x hy1, hy2⟩

theorem mem_sortJsonFields (l : List (String × Json)) (kv : String × Json)
    (h : kv ∈ sortJsonFields l) :
    ∃ k v, (k, v) ∈ l ∧ kv = (k, sortJson v) := by
  induction l with
  | nil => simp [sortJsonFields] at h
  | cons p ps ih =>
    obtain ⟨k0, v0⟩ := p
    rw [sortJsonFields] at h
    rcases List.mem_cons.mp h with h | h
    · exact ⟨k0, v0, List.mem_cons_self _ _, h⟩
    · obtain ⟨k, v, h1, h2⟩ := ih h
      exact ⟨k, v, List.mem_cons_of_mem _ h1, h2⟩

theorem mem_insertField (p x : String × Json) (l : List (String × Json))
    (h : x ∈ insertField p l) : x = p ∨ x ∈ l := by
  induction l with
  | nil =>
    rw [insertField] at h
    simp at h
    exact Or.inl h
  | cons q rest ih =>
    rw [insertField] at h
    by_cases hle : keyLeB p q
    · simp [hle] at h
      rcases h with h | h | h
      · exact Or.inl h
      · exact Or.inr (by simp [h])
      · exact Or.inr (List.mem_cons_of_mem q h)
    · simp [hle] at h
      rcases h with h | h
      · exact Or.inr (by simp [h])
      · rcases ih h with h2 | h2
        · exact Or.inl h2
        · exact Or.inr (List.mem_cons_of_mem q h2)

theorem mem_sortFields (l : List (String × Json)) (x : String × Json)
    (h : x ∈ sortFields l) : x ∈ l := by
  induction l with
  | nil => simpa [sortFields] using h
  | cons p rest ih =>
    rw [sortFields] at h
    rcases mem_insertField p x (sortFields rest) h with h2 | h2
    · simp [h2]
    · exact List.mem_cons_of_mem p (ih h2)

theorem charListLe_total : ∀ a b : List Char, charListLe a b = true ∨ charListLe b a = true := by
  intro a
  induction a with
  | nil =>
    intro b
    exact Or.inl rfl
  | cons c cs ih =>
    intro b
    cases b with
    | nil => exact Or.inr rfl
    | cons d ds =>
      rcases Nat.lt_trichotomy c.toNat d.toNat with h | h | h
      · exact Or.inl (by simp [charListLe, h])
      · rcases ih ds with h2 | h2
        · exact Or.inl (by simp [charListLe, h, h2])
        · exact Or.inr (by simp [charListLe, h, h2])
      · exact Or.inr (by simp [charListLe, h])

theorem charListLe_trans :
    ∀ a b c : List Char, charListLe a b = true → charListLe b c = true →
      charListLe a c = true := by
  intro a
  induction a with
  | nil =>
    intro b c _ _
    rfl
  | cons x xs ih =>
    intro b c hab hbc
    cases b with
    | nil => simp [charListLe] at hab
    | cons y ys =>
      cases c with
      | nil => simp [charListLe] at hbc
      | cons z zs =>
        rw [charListLe] at hab hbc ⊢
        split_ifs at hab hbc ⊢ <;>
          first
          | rfl
          | omega
          | simp at hab
          | simp at hbc
          | exact ih ys zs hab hbc

theorem keyLeB_total (a b : String × Json) : keyLeB a b = true ∨ keyLeB b a = true :=
  charListLe_total a.1.data b.1.data

theorem keyLeB_trans (a b c : String × Json) (h1 : keyLeB a b = true) (h2 : keyLeB b c = true) :
    keyLeB a c = true :=
  charListLe_trans a.1.data b.1.data c.1.data h1 h2

theorem insertField_pairwise (p : String × Json) (l : List (String × Json))
    (h : List.Pairwise (fun a b => keyLeB a b = true) l) :
    List.Pairwise (fun a b => keyLeB a b = true) (insertField p l) := by
  induction l with
  | nil =>
    rw [insertField]
    exact List.pairwise_singleton _ p
  | cons q rest ih =>
    obtain ⟨hq, hrest⟩ := List.pairwise_cons.mp h
    rw [insertField]
    by_cases hle : keyLeB p q
    · simp only [hle, if_true]
      refine List.pairwise_cons.mpr ⟨?_, h⟩
      intro b hb
      rcases List.mem_cons.mp hb with hb | hb
      · subst hb
        exact hle
      · exact keyLeB_trans p q b hle (hq b hb)
    · simp only [hle, if_false]
      refine List.pairwise_cons.mpr ⟨?_, ih hrest⟩
      intro b hb
      rcases mem_insertField p b rest hb with hb2 | hb2
      · rw [hb2]
        rcases keyLeB_total p q with h2 | h2
        · exact absurd h2 hle
        · exact h2
      · exact hq b hb2

theorem sortFields_pairwise (l : List (String × Json)) :
    List.Pairwise (fun a b => keyLeB a b = true) (sortFields l) := by
  induction l with
  | nil =>
    rw [sortFields]
    exact List.Pairwise.nil
  | cons p rest ih =>
    rw [sortFields]
    exact insertField_pairwise p (sortFields rest) ih

/-- Sorting keys preserves the absence of nulls. -/
theorem sortJson_noNulls (j : Json) (h : NoNulls j) : NoNulls (sortJson j) := by
  induction h with
  | bool b => exact NoNulls.bool b
  | num n => exact NoNulls.num n
  | str s => exact NoNulls.str s
  | arr items hmem ih =>
    show NoNulls (.arr (sortJsonList items))
    refine NoNulls.arr _ ?_
    intro j hj
    obtain ⟨x, hx1, hx2⟩ := mem_sortJsonList items j hj
    subst hx2
    exact ih x hx1
  | obj fields hmem ih =>
    show NoNulls (.obj (sortFields (sortJsonFields fields)))
    refine NoNulls.obj _ ?_
    intro kv hkv
    obtain ⟨k, v, h1, h2⟩ := mem_sortJsonFields fields kv (mem_sortFields _ kv hkv)
    subst h2
    exact ih (k, v) h1

/-- The sort_keys pass leaves every object key-sorted. -/
theorem sortJson_sorted : ∀ j : Json, JsonSorted (sortJson j) := by
  refine Json.myInduction (fun j => JsonSorted (sortJson j)) ?_ ?_ ?_ ?_ ?_ ?_
  · exact JsonSorted.null
  · exact fun b => JsonSorted.bool b
  · exact fun n => JsonSorted.num n
  · exact fun s => JsonSorted.str s
  · intro items ih
    show JsonSorted (.arr (sortJsonList items))
    refine JsonSorted.arr _ ?_
    intro j hj
    obtain ⟨x, hx1, hx2⟩ := mem_sortJsonList items j hj
    subst hx2
    exact ih x hx1
  · intro fields ih
    show JsonSorted (.obj (sortFields (sortJsonFields fields)))
    refine JsonSorted.obj _ ?_ (sortFields_pairwise _)
    intro kv hkv
    obtain ⟨k, v, h1, h2⟩ := mem_sortJsonFields fields kv (mem_sortFields _ kv hkv)
    subst h2
    exact ih (k, v) h1

/-!
Splitting/joining and decimal parse/print roundtrips, used to show
that pool normalization reproduces the input address strings.
-/

theorem pySplitOn_ne_nil (sep : Char) (l : List Char) : pySplitOn sep l ≠ [] := by
  cases l with
  | nil => simp [pySplitOn]
  | cons c rest =>
    rw [pySplitOn]
    split
    · simp
    · split <;> simp

theorem joinSep_cons_cons (sep c : Char) (p : List Char) (ps : List (List Char)) :
    joinSep sep ((c :: p) :: ps) = c :: joinSep sep (p :: ps) := by
  cases ps <;> rfl

theorem joinSep_pySplitOn (sep : Char) : ∀ l, joinSep sep (pySplitOn sep l) = l := by
  intro l
  induction l with
  | nil => rfl
  | cons c rest ih =>
    rw [pySplitOn]
    by_cases hc : c = sep
    · simp only [hc, if_true]
      cases hps : pySplitOn sep rest with
      | nil => exact absurd hps (pySplitOn_ne_nil sep rest)
      | cons q qs =>
        show sep :: joinSep sep (q :: qs) = sep :: rest
        rw [hps] at ih
        rw [ih]
    · simp only [hc, if_false]
      cases hps : pySplitOn sep rest with
      | nil => exact absurd hps (pySplitOn_ne_nil sep rest)
      | cons q qs =>
        rw [joinSep_cons_cons]
        rw [hps] at ih
        rw [ih]

theorem isPyDigit_bounds (c : Char) (h : isPyDigit c = true) :
    48 ≤ c.toNat ∧ c.toNat ≤ 57 := by
  simpa [isPyDigit, Bool.and_eq_true, decide_eq_true_eq] using h

theorem digitChar_inv (c : Char) (h : isPyDigit c = true) :
    Nat.digitChar (c.toNat - 48) = c := by
  obtain ⟨h1, h2⟩ := isPyDigit_bounds c h
  have key : ∀ m : Nat, m < 10 → Nat.digitChar m = Char.ofNat (48 + m) := by
    intro m hm
    interval_cases m <;> rfl
  have heq : Char.ofNat (48 + (c.toNat - 48)) = c := by
    have h3 : 48 + (c.toNat - 48) = c.toNat := by omega
    rw [h3]
    exact Char.ofNat_toNat c
  rw [key _ (by omega), heq]

theorem char_of_toNat_48 (c : Char) (h : c.toNat = 48) : c = '0' := by
  rw [← Char.ofNat_toNat c, h]

theorem parseOctet_decOct (l : List Char) (n : Nat) (h : parseOctet l = some n) :
    decOctChars n = l := by
  cases l with
  | nil => simp [parseOctet] at h
  | cons c rest =>
    rw [parseOctet] at h
    split_ifs at h with h1 h2 h3 h4
    have hall : (c :: rest).all isPyDigit = true := by simpa using h1
    have hn : digitsVal (c :: rest) = n := by injection h
    subst hn
    cases rest with
    | nil =>
      simp [Bool.and_eq_true] at hall
      have hb := isPyDigit_bounds c hall
      have hdv : digitsVal [c] = c.toNat - 48 := by simp [digitsVal]
      rw [hdv, decOctChars, if_pos (by omega)]
      rw [digitChar_inv c hall]
    | cons c2 rest2 =>
      cases rest2 with
      | nil =>
        simp [Bool.and_eq_true] at hall
        obtain ⟨hd1, hd2⟩ := hall
        have hb1 := isPyDigit_bounds c hd1
        have hb2 := isPyDigit_bounds c2 hd2
        have hzero : c ≠ '0' := by
          intro hc0
          exact h3 ⟨hc0, by simp⟩
        have h48 : c.toNat ≠ 48 := fun hh => hzero (char_of_toNat_48 c hh)
        have hdv : digitsVal [c, c2] = 10 * (c.toNat - 48) + (c2.toNat - 48) := by
          simp [digitsVal]
        rw [hdv, decOctChars, if_neg (by omega), if_pos (by omega)]
        have e1 : (10 * (c.toNat - 48) + (c2.toNat - 48)) / 10 = c.toNat - 48 := by omega
        have e2 : (10 * (c.toNat - 48) + (c2.toNat - 48)) % 10 = c2.toNat - 48 := by omega
        rw [e1, e2, digitChar_inv c hd1, digitChar_inv c2 hd2]
      | cons c3 rest3 =>
        cases rest3 with
        | nil =>
          simp [Bool.and_eq_true] at hall
          obtain ⟨hd1, hd2, hd3⟩ := hall
          have hb1 := isPyDigit_bounds c hd1
          have hb2 := isPyDigit_bounds c2 hd2
          have hb3 := isPyDigit_bounds c3 hd3
          have hzero : c ≠ '0' := by
            intro hc0
            exact h3 ⟨hc0, by simp⟩
          have h48 : c.toNat ≠ 48 := fun hh => hzero (char_of_toNat_48 c hh)
          have hdv : digitsVal [c, c2, c3] =
              100 * (c.toNat - 48) + 10 * (c2.toNat - 48) + (c3.toNat - 48) := by
            simp [digitsVal]
            omega
          rw [hdv, decOctChars, if_neg (by omega), if_neg (by omega)]
          have e1 : (100 * (c.toNat - 48) + 10 * (c2.toNat - 48) + (c3.toNat - 48)) / 100 =
              c.toNat - 48 := by omega
          have e2 : (100 * (c.toNat - 48) + 10 * (c2.toNat - 48) + (c3.toNat - 48)) / 10 % 10 =
              c2.toNat - 48 := by omega
          have e3 : (100 * (c.toNat - 48) + 10 * (c2.toNat - 48) + (c3.toNat - 48)) % 10 =
              c3.toNat - 48 := by omega
          rw [e1, e2, e3, digitChar_inv c hd1, digitChar_inv c2 hd2, digitChar_inv c3 hd3]
        | cons c4 rest4 =>
          simp at h2

theorem parseIPv4_roundtrip (l : List Char) (ip : IPv4) (h : parseIPv4Chars l = some ip) :
    ipv4Chars ip = l := by
  rw [parseIPv4Chars] at h
  split at h
  next scrutX p1 p2 p3 p4 heq =>
    split at h
    next q1 q2 q3 q4 x1 x2 x3 x4 e1 e2 e3 e4 =>
      injection h with h
      subst h
      have hjoin := joinSep_pySplitOn '.' l
      rw [heq] at hjoin
      show decOctChars x1 ++ '.' :: (decOctChars x2 ++ '.' ::
        (decOctChars x3 ++ '.' :: decOctChars x4)) = l
      rw [parseOctet_decOct p1 x1 e1, parseOctet_decOct p2 x2 e2,
          parseOctet_decOct p3 x3 e3, parseOctet_decOct p4 x4 e4]
      simpa [joinSep] using hjoin
    next => exact Option.noConfusion h
  next => exact Option.noConfusion h

theorem ipv4Str_eq (s : String) (ip : IPv4) (h : parseIPv4String s = some ip) :
    ipv4Str ip = s := by
  have h2 := parseIPv4_roundtrip s.data ip h
  show (⟨ipv4Chars ip⟩ : String) = s
  rw [h2]

theorem mapM_isErr {α β : Type} (f : α → Except String β) (l : List α) (x : α)
    (hx : x ∈ l) (hf : isErr (f x) = true) : isErr (l.mapM f) = true := by
  induction l with
  | nil => simp at hx
  | cons a as ih =>
    rw [List.mapM_cons]
    cases hfa : f a with
    | error e => simp [hfa, Bind.bind, Except.bind, isErr]
    | ok b =>
      rcases List.mem_cons.mp hx with hcase | hcase
      · rw [← hcase] at hfa
        rw [hfa] at hf
        simp [isErr] at hf
      · have hrec := ih hcase
        cases hrest : as.mapM f with
        | error e => simp [hfa, hrest, Bind.bind, Except.bind, isErr, Pure.pure]
        | ok bs =>
          rw [hrest] at hrec
          simp [isErr] at hrec

/-!
Helper lemmas for the claim theorems.
-/

theorem isErr_bind {α β : Type} (x : V α) (f : α → V β)
    (hf : ∀ a, isErr (f a) = true) : isErr (Bind.bind x f) = true := by
  cases x with
  | error e => simp [Bind.bind, Except.bind, isErr]
  | ok a =>
    simp only [Bind.bind, Except.bind]
    exact hf a

theorem pyReplace1_roundtrip (l : List Char) (h : '-' ∉ l) :
    pyReplace1 '-' '_' (pyReplace1 '_' '-' l) = l := by
  induction l with
  | nil => rfl
  | cons c rest ih =>
    simp only [List.mem_cons, not_or] at h
    obtain ⟨hc, hrest⟩ := h
    rw [pyReplace1, pyReplace1]
    by_cases hcu : c = '_'
    · simp only [hcu, if_true, if_pos rfl]
      rw [ih hrest]
    · simp only [hcu, if_false]
      rw [if_neg (fun hh => hc hh.symm), ih hrest]

/-!
Claim theorems.
-/

/-- C7: for every internal field identifier that contains underscores
and no hyphens and is not the literal exception output_options,
translating (kea_alias_generator) and then reverse-translating
(replacing hyphens with underscores) recovers the original identifier;
output_options itself is translated to output_options unchanged. -/
theorem c7_alias_translation_involutive (s : String)
    (h1 : '_' ∈ s.data) (h2 : '-' ∉ s.data) (h3 : s ≠ "output_options") :
    kea_reverse_alias (kea_alias_generator s) = s ∧
    kea_alias_generator "output_options" = "output_options" := by
  constructor
  · rw [kea_alias_generator]
    have hne : (("output_options" : String) == s) = false := by
      simp only [beq_eq_false_iff_ne]
      exact fun hh => h3 hh.symm
    simp only [exception_map, List.find?, hne]
    rw [kea_reverse_alias]
    show (⟨pyReplace1 '-' '_' (pyReplace1 '_' '-' s.data)⟩ : String) = s
    rw [pyReplace1_roundtrip s.data h2]
  · rfl

/-- Witness for C7 at the concrete identifier lfc_interval. -/
theorem c7_alias_translation_involutive_witness :
    ('_' ∈ "lfc_interval".data ∧ '-' ∉ "lfc_interval".data ∧
      ("lfc_interval" : String) ≠ "output_options") ∧
    (kea_reverse_alias (kea_alias_generator "lfc_interval") = "lfc_interval" ∧
      kea_alias_generator "output_options" = "output_options") :=
  ⟨⟨by decide, by decide, by decide⟩,
    c7_alias_translation_involutive "lfc_interval" (by decide) (by decide) (by decide)⟩

/-- C3: constructing a KeaDhcpOption from a dict in which neither the
name field nor the code field is set (under alias or field name) always
fails validation: either some other field fails first, or the
validate_code_or_name root validator rejects the record. -/
theorem c3_option_requires_name_or_code (fs : List (String × Raw))
    (hn : fieldLookup fs "name" = none) (hc : fieldLookup fs "code" = none) :
    isErr (KeaDhcpOption.parse_obj (.dict fs)) = true := by
  show isErr (KeaDhcpOption.fromDict fs) = true
  have hname : optRawField fs "name" strField = .ok none := by
    rw [optRawField, hn]
  have hcode : optRawField fs "code" nonNegIntField = .ok none := by
    rw [optRawField, hc]
  rw [KeaDhcpOption.fromDict]
  simp only [hname, hcode, Bind.bind, Except.bind]
  apply isErr_bind
  intro space
  apply isErr_bind
  intro data
  apply isErr_bind
  intro always_send
  apply isErr_bind
  intro csv_format
  simp [pyTruthyStr, pyTruthyNat, isErr]

/-- Witness for C3 at the empty input dict. -/
theorem c3_option_requires_name_or_code_witness :
    isErr (KeaDhcpOption.parse_obj (.dict [])) = true :=
  c3_option_requires_name_or_code [] rfl rfl

/-- C8: a KeaDhcpOption whose code is supplied as 0 while name is
absent (or a string that strips to empty) fails validation, because
validate_code_or_name tests Python truthiness and both 0 and the empty
string are falsy. -/
theorem c8_zero_code_empty_name_rejected (fs : List (String × Raw))
    (hc : fieldLookup fs "code" = some (.num 0))
    (hn : fieldLookup fs "name" = none ∨
      ∃ s, fieldLookup fs "name" = some (.str s) ∧ pyStrip s = "") :
    isErr (KeaDhcpOption.parse_obj (.dict fs)) = true := by
  show isErr (KeaDhcpOption.fromDict fs) = true
  rw [KeaDhcpOption.fromDict]
  have hcode : optRawField fs "code" nonNegIntField = .ok (some 0) := by
    rw [optRawField, hc]
    rfl
  rcases hn with hn | ⟨s, hn, hs⟩
  · have hname : optRawField fs "name" strField = .ok none := by
      rw [optRawField, hn]
    simp only [hname, hcode, Bind.bind, Except.bind]
    apply isErr_bind
    intro space
    apply isErr_bind
    intro data
    apply isErr_bind
    intro always_send
    apply isErr_bind
    intro csv_format
    simp [pyTruthyStr, pyTruthyNat, isErr]
  · have hname : optRawField fs "name" strField = .ok (some "") := by
      rw [optRawField, hn]
      simp [strField, str_validator, Except.map, hs]
    simp only [hname, hcode]
    simp only [Bind.bind, Except.bind]
    apply isErr_bind
    intro space
    apply isErr_bind
    intro data
    apply isErr_bind
    intro always_send
    apply isErr_bind
    intro csv_format
    simp [pyTruthyStr, pyTruthyNat, isErr]

/-- Witness for C8 at code 0 with name absent, and at code 0 with a
whitespace-only name. -/
theorem c8_zero_code_empty_name_rejected_witness :
    isErr (KeaDhcpOption.parse_obj (.dict [("code", .num 0)])) = true ∧
    isErr (KeaDhcpOption.parse_obj (.dict [("code", .num 0), ("name", .str "  ")])) = true :=
  ⟨c8_zero_code_empty_name_rejected [("code", .num 0)] rfl (Or.inl rfl),
    c8_zero_code_empty_name_rejected [("code", .num 0), ("name", .str "  ")] rfl
      (Or.inr ⟨"  ", rfl, rfl⟩)⟩

/-- C9: a pool raw value that is neither a list nor a string is
returned unchanged by the pre-validator (no IPv4 validation happens),
and is then only coerced by the declared str field type, so pool given
as the integer 5 constructs a KeaPool4 whose pool is "5". -/
theorem c9_non_list_non_str_pool_passthrough (v : Raw)
    (h1 : ∀ items, v ≠ .list items) (h2 : ∀ s, v ≠ .str s) :
    KeaPool4.validate_pool v = .ok v ∧
    KeaPool4.parse_obj (.dict [("pool", .num 5)]) =
      .ok ⟨none, none, none, none, none, none, "5"⟩ := by
  constructor
  · cases v with
    | list items => exact absurd rfl (h1 items)
    | str s => exact absurd rfl (h2 s)
    | null => rfl
    | bool b => rfl
    | num n => rfl
    | dict fs => rfl
  · rfl

/-- Witness for C9 at the integer raw value 7. -/
theorem c9_non_list_non_str_pool_passthrough_witness :
    KeaPool4.validate_pool (.num 7) = .ok (.num 7) ∧
    KeaPool4.parse_obj (.dict [("pool", .num 5)]) =
      .ok ⟨none, none, none, none, none, none, "5"⟩ :=
  c9_non_list_non_str_pool_passthrough (.num 7) (fun _ h => Raw.noConfusion h)
    (fun _ h => Raw.noConfusion h)

/-- C10: the filter registry of KeaFilters().filters(), and hence of
FilterModule().filters(), is exactly the single entry mapping
"get_kea4_config" to that bound method; neither "filters" itself nor
any underscore-prefixed attribute is included. -/
theorem c10_filter_registry :
    KeaFilters.filters = [("get_kea4_config", PyValue.func "get_kea4_config")] ∧
    FilterModule.filters = [("get_kea4_config", PyValue.func "get_kea4_config")] :=
  ⟨rfl, rfl⟩

/-- C1: pool range normalization.  For a list of two strings that both
parse as IPv4 addresses the validator returns exactly "a - b" with the
entries in input order; a singleton list [a] returns "a - a"; a string
value is split on "-" with each part whitespace-trimmed and the list
rule applied; in particular "10.0.0.10-10.0.0.100" normalizes to
"10.0.0.10 - 10.0.0.100". -/
theorem c1_pool_range_normalization (a b : String) (ipa ipb : IPv4)
    (ha : parseIPv4String a = some ipa) (hb : parseIPv4String b = some ipb) :
    KeaPool4.validate_pool (.list [.str a, .str b]) = .ok (.str (a ++ " - " ++ b)) ∧
    KeaPool4.validate_pool (.list [.str a]) = .ok (.str (a ++ " - " ++ a)) ∧
    (∀ s : String, KeaPool4.validate_pool (.str s) =
      KeaPool4.validate_pool
        (.list ((pySplitOn '-' s.data).map (fun part => .str ⟨pyStripChars part⟩)))) ∧
    KeaPool4.validate_pool (.str "10.0.0.10-10.0.0.100") =
      .ok (.str "10.0.0.10 - 10.0.0.100") := by
  have hfa : IPv4Address_ofRaw (.str a) = .ok ipa := by
    simp only [IPv4Address_ofRaw, ha]
  have hfb : IPv4Address_ofRaw (.str b) = .ok ipb := by
    simp only [IPv4Address_ofRaw, hb]
  refine ⟨?_, ?_, ?_, ?_⟩
  · show validate_pool_list [Raw.str a, Raw.str b] = .ok (.str (a ++ " - " ++ b))
    rw [validate_pool_list, if_neg (by simp)]
    have hm : List.mapM IPv4Address_ofRaw [Raw.str a, Raw.str b] = .ok [ipa, ipb] := by
      simp only [List.mapM_cons, List.mapM_nil, hfa, hfb]
      rfl
    rw [hm]
    show Except.ok (Raw.str (ipv4Str ipa ++ " - " ++ ipv4Str ipb)) = _
    rw [ipv4Str_eq a ipa ha, ipv4Str_eq b ipb hb]
  · show validate_pool_list [Raw.str a] = .ok (.str (a ++ " - " ++ a))
    rw [validate_pool_list, if_neg (by simp)]
    have hm : List.mapM IPv4Address_ofRaw [Raw.str a] = .ok [ipa] := by
      simp only [List.mapM_cons, List.mapM_nil, hfa]
      rfl
    rw [hm]
    show Except.ok (Raw.str (ipv4Str ipa ++ " - " ++ ipv4Str ipa)) = _
    rw [ipv4Str_eq a ipa ha]
  · intro s
    rfl
  · rfl

/-- Witness for C1 at the pool ["10.0.0.10", "10.0.0.100"]. -/
theorem c1_pool_range_normalization_witness :
    KeaPool4.validate_pool (.list [.str "10.0.0.10", .str "10.0.0.100"]) =
      .ok (.str ("10.0.0.10" ++ " - " ++ "10.0.0.100")) ∧
    KeaPool4.validate_pool (.list [.str "10.0.0.10"]) =
      .ok (.str ("10.0.0.10" ++ " - " ++ "10.0.0.10")) ∧
    (∀ s : String, KeaPool4.validate_pool (.str s) =
      KeaPool4.validate_pool
        (.list ((pySplitOn '-' s.data).map (fun part => .str ⟨pyStripChars part⟩)))) ∧
    KeaPool4.validate_pool (.str "10.0.0.10-10.0.0.100") =
      .ok (.str "10.0.0.10 - 10.0.0.100") :=
  c1_pool_range_normalization "10.0.0.10" "10.0.0.100" ⟨10, 0, 0, 10⟩ ⟨10, 0, 0, 100⟩ rfl rfl

/-- C6: every pool list of length 0 or greater than 2, and every pool
list containing an entry that does not parse as an IPv4 address, fails
validation, and no KeaPool4 is ever constructed from a dict carrying
such a pool value. -/
theorem c6_bad_pool_list_rejected (l : List Raw) (fs : List (String × Raw))
    (hbad : l.length = 0 ∨ 2 < l.length ∨
      ∃ x, x ∈ l ∧ isErr (IPv4Address_ofRaw x) = true)
    (hfs : fieldLookup fs "pool" = some (.list l)) :
    isErr (KeaPool4.validate_pool (.list l)) = true ∧
    isErr (KeaPool4.parse_obj (.dict fs)) = true := by
  have hvp : isErr (KeaPool4.validate_pool (.list l)) = true := by
    show isErr (validate_pool_list l) = true
    rw [validate_pool_list]
    by_cases hlen : 2 < l.length ∨ l.length < 1
    · rw [if_pos hlen]
      rfl
    · rw [if_neg hlen]
      rcases hbad with h0 | h2 | ⟨x, hx, hxe⟩
      · exact absurd (Or.inr (by omega)) hlen
      · exact absurd (Or.inl h2) hlen
      · have hm := mapM_isErr IPv4Address_ofRaw l x hx hxe
        cases hmm : l.mapM IPv4Address_ofRaw with
        | error e =>
          rfl
        | ok addrs =>
          rw [hmm] at hm
          simp [isErr] at hm
  refine ⟨hvp, ?_⟩
  have hpf : isErr (poolField fs) = true := by
    rw [poolField, hfs]
    cases hv : KeaPool4.validate_pool (.list l) with
    | error e =>
      simp [hv, Bind.bind, Except.bind, isErr]
    | ok r =>
      rw [hv] at hvp
      simp [isErr] at hvp
  show isErr (KeaPool4.fromDict fs) = true
  rw [KeaPool4.fromDict]
  apply isErr_bind
  intro option_data
  apply isErr_bind
  intro option_def
  apply isErr_bind
  intro server_hostname
  apply isErr_bind
  intro client_class
  apply isErr_bind
  intro require_client_classes
  apply isErr_bind
  intro user_context
  cases hp : poolField fs with
  | error e =>
    simp [hp, Bind.bind, Except.bind, isErr]
  | ok p =>
    rw [hp] at hpf
    simp [isErr] at hpf

/-- Witness for C6 at the singleton pool list ["nope"] (and a dict
carrying it). -/
theorem c6_bad_pool_list_rejected_witness :
    isErr (KeaPool4.validate_pool (.list [.str "nope"])) = true ∧
    isErr (KeaPool4.parse_obj (.dict [("pool", .list [.str "nope"])])) = true :=
  c6_bad_pool_list_rejected [.str "nope"] [("pool", .list [.str "nope"])]
    (Or.inr (Or.inr ⟨.str "nope", List.mem_cons_self _ _, rfl⟩)) rfl

/-- C2 (behaviour at the failing input): unknown extra fields are
silently dropped, not preserved.  Construction from a dict carrying
only the unknown key foo succeeds and renders the all-defaults
document, in which the key foo never occurs: under pydantic v1 the
line extra_config: Extra.allow is a bare annotation with an unknown
option name, so the inherited default Extra.ignore governs. -/
theorem c2_extra_fields_dropped :
    KeaFilters.get_kea4_config (.dict [("foo", .str "bar")]) = .ok defaultRenderedDhcp4 ∧
    jsonHasKey "foo" defaultRenderedDhcp4 = false :=
  ⟨rfl, rfl⟩

/-- C4: rendering with no optional fields supplied produces exactly
the documented defaults with no null-valued keys, and the
lease-database object is exactly the memfile/3600 default. -/
theorem c4_default_rendering :
    KeaFilters.get_kea4_config (.dict []) = .ok defaultRenderedDhcp4 ∧
    containsNull defaultRenderedDhcp4 = false ∧
    (jsonTopGet defaultRenderedDhcp4 "Dhcp4").bind
      (fun inner => jsonTopGet inner "lease-database") =
      some (.obj [("lfc-interval", .num 3600), ("type", .str "memfile")]) :=
  ⟨rfl, rfl, rfl⟩

/-- C5: every document emitted by get_kea4_config is wrapped in the
single top-level key Dhcp4, contains no null values (absent fields are
omitted), and lists every object's keys in sorted order. -/
theorem c5_render_canonical_shape (data : Raw) (j : Json)
    (h : KeaFilters.get_kea4_config data = .ok j) :
    (∃ inner, j = .obj [("Dhcp4", inner)]) ∧ NoNulls j ∧ JsonSorted j := by
  rw [KeaFilters.get_kea4_config] at h
  cases hp : KeaDhcp4Config.parse_obj data with
  | error e =>
    rw [hp] at h
    simp [Bind.bind, Except.bind] at h
  | ok d =>
    rw [hp] at h
    simp only [Bind.bind, Except.bind, Pure.pure, Except.pure, Except.ok.injEq] at h
    subst h
    refine ⟨?_, ?_, sortJson_sorted _⟩
    · exact ⟨sortJson (excludeNone (KeaDhcp4Config.toJson d)), rfl⟩
    · apply sortJson_noNulls
      apply excludeNone_noNulls
      simp [KeaConfigFileDhcp4.toJson]

/-- Witness for C5 at the empty input dict. -/
theorem c5_render_canonical_shape_witness :
    (∃ inner, defaultRenderedDhcp4 = Json.obj [("Dhcp4", inner)]) ∧
    NoNulls defaultRenderedDhcp4 ∧ JsonSorted defaultRenderedDhcp4 :=
  c5_render_canonical_shape (.dict []) defaultRenderedDhcp4 (by rfl)

end Kea
